import Mathlib

/-!
Verification of the loan/LP alert bot's core: the incremental position
scanner (bounded log windows + resumable checkpoint), the risk classifiers
(liquidation, redemption, LP range drift, CDP redemption state) and the
alert dedup engine.

The JavaScript source computes with IEEE doubles that may be `NaN` or
`±Infinity` and with `null` for missing values.  We embed a JS numeric
value as `JSNum` (a finite rational, `NaN`, or a signed infinity) and a
possibly-`null` value as `Option JSNum`.  Finite arithmetic is modelled
exactly over `ℚ`; the classifiers only ever compare, subtract, divide and
take absolute values, so the embedding below covers every operation they
perform.  Human-readable label strings built with `toFixed` are not part of
any claim and are omitted from the summary structures.
-/

namespace LoanBot

/-- A JavaScript number: a finite value, `NaN`, or a signed infinity. -/
inductive JSNum where
  | fin : ℚ → JSNum
  | nan : JSNum
  | posInf : JSNum
  | negInf : JSNum
deriving DecidableEq, Repr

namespace JSNum

/-- `Number.isFinite`. -/
def isFinite : JSNum → Bool
  | .fin _ => true
  | _ => false

/-- JS `<=` on numbers: any comparison with `NaN` is false. -/
def jsLe : JSNum → JSNum → Bool
  | .nan, _ => false
  | _, .nan => false
  | .fin a, .fin b => decide (a ≤ b)
  | .negInf, _ => true
  | _, .posInf => true
  | .posInf, .fin _ => false
  | .posInf, .negInf => false
  | .fin _, .negInf => false

/-- JS `<` on numbers: any comparison with `NaN` is false. -/
def jsLt : JSNum → JSNum → Bool
  | .nan, _ => false
  | _, .nan => false
  | .fin a, .fin b => decide (a < b)
  | .negInf, .negInf => false
  | .negInf, _ => true
  | .posInf, _ => false
  | .fin _, .posInf => true
  | .fin _, .negInf => false

/-- JS subtraction. -/
def jsSub : JSNum → JSNum → JSNum
  | .nan, _ => .nan
  | _, .nan => .nan
  | .fin a, .fin b => .fin (a - b)
  | .fin _, .posInf => .negInf
  | .fin _, .negInf => .posInf
  | .posInf, .fin _ => .posInf
  | .negInf, .fin _ => .negInf
  | .posInf, .posInf => .nan
  | .posInf, .negInf => .posInf
  | .negInf, .posInf => .negInf
  | .negInf, .negInf => .nan

/-- JS `Math.abs`. -/
def jsAbs : JSNum → JSNum
  | .fin a => .fin |a|
  | .nan => .nan
  | .posInf => .posInf
  | .negInf => .posInf

/-- JS division (`0/0 = NaN`, `x/0 = ±Infinity`; ℚ has no `-0`). -/
def jsDiv : JSNum → JSNum → JSNum
  | .nan, _ => .nan
  | _, .nan => .nan
  | .fin a, .fin b =>
      if b = 0 then (if a = 0 then .nan else if 0 < a then .posInf else .negInf)
      else .fin (a / b)
  | .fin _, .posInf => .fin 0
  | .fin _, .negInf => .fin 0
  | .posInf, .fin b => if b < 0 then .negInf else .posInf
  | .negInf, .fin b => if b < 0 then .posInf else .negInf
  | _, _ => .nan

/-- JS `Math.min` on two numbers: `NaN` if either side is `NaN`. -/
def jsMin (x y : JSNum) : JSNum :=
  match x, y with
  | .nan, _ => .nan
  | _, .nan => .nan
  | a, b => if jsLe a b then a else b

end JSNum

open JSNum

/-- `Number.isFinite` on a possibly-`null` value (`Number.isFinite(null)` is false). -/
def isFiniteOpt : Option JSNum → Bool
  | none => false
  | some x => x.isFinite

-- -----------------------------
-- Tier orders and the tier-comparison helper (monitoring/loanMonitor.js)
-- -----------------------------

def LIQ_TIER_ORDER : List String := ["LOW", "MEDIUM", "HIGH", "CRITICAL", "UNKNOWN"]

def REDEMP_TIER_ORDER : List String := ["LOW", "NEUTRAL", "MEDIUM", "HIGH", "UNKNOWN"]

def LP_TIER_ORDER : List String := ["LOW", "MEDIUM", "HIGH", "CRITICAL", "UNKNOWN"]

/-- JS `Array.prototype.indexOf`: the first index of `x`, or `-1`. -/
def jsIndexOf (order : List String) (x : String) : Int :=
  match order.indexOf? x with
  | some i => (i : Int)
  | none => -1

/-- `isTierAtLeast(tier, minTier, order)`.  The JS source defaults a falsy
`tier`/`minTier` (`null`, `undefined`, `''`) to `'UNKNOWN'`; with string
inputs the only falsy value is the empty string. -/
def isTierAtLeast (tier minTier : String) (order : List String) : Bool :=
  let t := if tier = "" then "UNKNOWN" else tier
  let m := if minTier = "" then "UNKNOWN" else minTier
  let idx := jsIndexOf order t
  let minIdx := jsIndexOf order m
  if idx = -1 || minIdx = -1 then false else decide (idx ≥ minIdx)

/-- `isLpTierAtLeast(tier, minTier)` (monitoring/lpMonitor.js): the same
comparison with the LP tier order fixed. -/
def isLpTierAtLeast (tier minTier : String) : Bool :=
  isTierAtLeast tier minTier LP_TIER_ORDER

-- -----------------------------
-- Classifier configuration
-- -----------------------------

/-- `LIQ_BUFFER_WARN/HIGH/CRIT` from the environment.  `requireNumberEnv`
aborts startup on a non-finite value, but the classifier still re-checks
`Number.isFinite` on each threshold, so the model keeps them as `JSNum`. -/
structure LiqThresholds where
  warn : JSNum
  high : JSNum
  crit : JSNum
deriving DecidableEq, Repr

/-- `REDEMP_BELOW_HIGH/MED` and `REDEMP_NEUTRAL_ABS` from the environment. -/
structure RedempThresholds where
  belowHigh : JSNum
  belowMed : JSNum
  neutralAbs : JSNum
deriving DecidableEq, Repr

-- -----------------------------
-- Tier classifiers (monitoring/loanMonitor.js)
-- -----------------------------

/-- Result of `classifyRedemptionTier` (the `diffLabel` string is omitted). -/
structure RedempClass where
  tier : String
  diffPct : Option JSNum
deriving DecidableEq, Repr

/-- `classifyRedemptionTier(interestPct, globalPct)`. -/
def classifyRedemptionTier (cfg : RedempThresholds) (interestPct : JSNum)
    (globalPct : Option JSNum) : RedempClass :=
  match globalPct with
  | none => { tier := "UNKNOWN", diffPct := none }
  | some g =>
    let diff := jsSub interestPct g
    let absDiff := jsAbs diff
    let tier :=
      if cfg.belowHigh.isFinite && jsLe diff cfg.belowHigh then "HIGH"
      else if cfg.belowMed.isFinite && jsLe diff cfg.belowMed then "MEDIUM"
      else if cfg.neutralAbs.isFinite && jsLe absDiff cfg.neutralAbs then "NEUTRAL"
      else "LOW"
    { tier := tier, diffPct := some diff }

/-- Result of `classifyLiquidationRisk` (the `bufferLabel` string is omitted). -/
structure LiqClass where
  tier : String
  bufferFrac : Option JSNum
deriving DecidableEq, Repr

/-- `classifyLiquidationRisk(bufferFrac)`. -/
def classifyLiquidationRisk (cfg : LiqThresholds) (bufferFrac : Option JSNum) :
    LiqClass :=
  match bufferFrac with
  | none => { tier := "UNKNOWN", bufferFrac := none }
  | some b =>
    if !b.isFinite then { tier := "UNKNOWN", bufferFrac := none }
    else
      let tier :=
        if cfg.crit.isFinite && jsLe b cfg.crit then "CRITICAL"
        else if cfg.high.isFinite && jsLe b cfg.high then "HIGH"
        else if cfg.warn.isFinite && jsLe b cfg.warn then "MEDIUM"
        else "LOW"
      { tier := tier, bufferFrac := some b }

-- -----------------------------
-- CDP redemption state (monitoring/loanMonitor.js)
-- -----------------------------

/-- Result of `classifyCdpRedemptionState` (the `label` string is omitted). -/
structure CdpClass where
  state : String
  trigger : JSNum
  diff : Option JSNum
deriving DecidableEq, Repr

/-- `classifyCdpRedemptionState(cdpPrice)` with the configured
`CDP_REDEMPTION_TRIGGER` made explicit. -/
def classifyCdpRedemptionState (trigger : JSNum) (cdpPrice : Option JSNum) :
    CdpClass :=
  match cdpPrice with
  | none => { state := "UNKNOWN", trigger := trigger, diff := none }
  | some p =>
    let diff := jsSub p trigger
    let state := if jsLt p trigger then "ACTIVE" else "DORMANT"
    { state := state, trigger := trigger, diff := some diff }

-- -----------------------------
-- LP range tier classification (monitoring/lpMonitor.js)
-- -----------------------------

/-- `LP_EDGE_WARN_FRAC`, `LP_EDGE_HIGH_FRAC`, `LP_OUT_WARN_FRAC`,
`LP_OUT_HIGH_FRAC` from the environment. -/
structure LpThresholds where
  edgeWarn : JSNum
  edgeHigh : JSNum
  outWarn : JSNum
  outHigh : JSNum
deriving DecidableEq, Repr

/-- Result of `classifyLpRangeTier` (the `label` string is omitted). -/
structure LpClass where
  tier : String
  positionFrac : Option JSNum
  distanceFrac : Option JSNum
deriving DecidableEq, Repr

/-- `(rangeStatus || '').toString().toUpperCase().replace(/\s+/g, '_')`:
upper-case and replace blanks by underscores.  (The regex collapses a run of
whitespace into one underscore; every status string produced in this
repository has single blanks, where the two coincide.) -/
def normalizeRangeStatus (s : String) : String :=
  (s.toUpper).map (fun c => if c = ' ' then '_' else c)

/-- `classifyLpRangeTier(rangeStatus, tickLower, tickUpper, currentTick)`.
`currentTick` is `null` when the pool lookup failed. -/
def classifyLpRangeTier (cfg : LpThresholds) (rangeStatus : String)
    (tickLower tickUpper : JSNum) (currentTick : Option JSNum) : LpClass :=
  let normStatus := normalizeRangeStatus rangeStatus
  let width := jsSub tickUpper tickLower
  let hasTicks :=
    width.isFinite && jsLt (.fin 0) width &&
    tickLower.isFinite && tickUpper.isFinite && isFiniteOpt currentTick
  if normStatus = "IN_RANGE" && hasTicks then
    let t := currentTick.getD .nan
    let positionFrac := jsDiv (jsSub t tickLower) width
    let centerDist := jsMin positionFrac (jsSub (.fin 1) positionFrac)
    if !centerDist.isFinite || jsLt centerDist (.fin 0) then
      { tier := "UNKNOWN", positionFrac := none, distanceFrac := none }
    else
      let tier :=
        if cfg.edgeHigh.isFinite && jsLe centerDist cfg.edgeHigh then "HIGH"
        else if cfg.edgeWarn.isFinite && jsLe centerDist cfg.edgeWarn then "MEDIUM"
        else "LOW"
      { tier := tier, positionFrac := some positionFrac, distanceFrac := some centerDist }
  else if normStatus = "OUT_OF_RANGE" && hasTicks then
    let t := currentTick.getD .nan
    let distanceFrac : Option JSNum :=
      if jsLt t tickLower then some (jsDiv (jsSub tickLower t) width)
      else if jsLe tickUpper t then some (jsDiv (jsSub t tickUpper) width)
      else none
    match distanceFrac with
    | none => { tier := "HIGH", positionFrac := none, distanceFrac := none }
    | some d =>
      if !d.isFinite || jsLt d (.fin 0) then
        { tier := "HIGH", positionFrac := none, distanceFrac := none }
      else
        let tier :=
          if cfg.outWarn.isFinite && jsLe d cfg.outWarn then "MEDIUM"
          else if cfg.outHigh.isFinite && jsLe d cfg.outHigh then "HIGH"
          else "CRITICAL"
        { tier := tier, positionFrac := none, distanceFrac := some d }
  else
    { tier := if normStatus = "IN_RANGE" then "LOW" else "UNKNOWN",
      positionFrac := none, distanceFrac := none }

-- -----------------------------
-- Alert dedup engine (monitoring/alertEngine.js)
-- -----------------------------

/-- One entry of the in-memory `alertState` map. -/
structure AlertRecord where
  isActive : Bool
  sigValue : Option String
deriving DecidableEq, Repr

/-- The two outward (DM) notification phases.  `RESOLVED` is logged only and
sends no DM, so it is not an outward notification. -/
inductive Phase where
  | NEW
  | UPDATED
deriving DecidableEq, Repr

/-- The `alertState` JS `Map`, as an association list keyed by the alert key. -/
abbrev AlertMap := List (String × AlertRecord)

/-- `Map.prototype.get`. -/
def mapGet (m : AlertMap) (k : String) : Option AlertRecord :=
  match m with
  | [] => none
  | (k', v) :: rest => if k' = k then some v else mapGet rest k

/-- `Map.prototype.set`: replace the entry for `k`, or append one. -/
def mapSet (m : AlertMap) (k : String) (v : AlertRecord) : AlertMap :=
  match m with
  | [] => [(k, v)]
  | (k', v') :: rest => if k' = k then (k, v) :: rest else (k', v') :: mapSet rest k v

/-- `processAlert({key, isActive, signaturePayload, ...})`.  `makeSignature`
is a deterministic sha256 over the JSON payload, so a fixed payload yields a
fixed signature string; the model takes that string directly.  Returns the
updated map and the outward notification sent, if any (`sendDm` fires only
on the NEW and UPDATED branches; RESOLVED only logs). -/
def processAlert (st : AlertMap) (key : String) (isActive : Bool)
    (sigOfPayload : String) : AlertMap × Option Phase :=
  let prev := (mapGet st key).getD { isActive := false, sigValue := none }
  if isActive && !prev.isActive then
    (mapSet st key { isActive := true, sigValue := some sigOfPayload }, some Phase.NEW)
  else if isActive && prev.isActive && !(prev.sigValue == some sigOfPayload) then
    (mapSet st key { isActive := true, sigValue := some sigOfPayload }, some Phase.UPDATED)
  else if isActive && prev.isActive && (prev.sigValue == some sigOfPayload) then
    (st, none)
  else if !isActive && prev.isActive then
    (mapSet st key { isActive := false, sigValue := none }, none)
  else
    (st, none)

/-- A run of `n` consecutive `processAlert` calls for one key, all with
`isActive = true` and the same signature payload, collecting the outward
notifications in order. -/
def processActiveRun (st : AlertMap) (key sig : String) : ℕ → AlertMap × List Phase
  | 0 => (st, [])
  | n + 1 =>
    let step := processAlert st key true sig
    let rest := processActiveRun step.1 key sig n
    (rest.1, step.2.toList ++ rest.2)

-- -----------------------------
-- Position scanner: bounded log-query windows
-- (dev discovery scripts, `discoverTokenIdsForOwner` / `discoverTroveIdsForOwner`)
-- -----------------------------

/-- The inclusive `[fromBlock, toBlock]` windows issued by the scan loop

    for (let fromBlock = startBlock; fromBlock <= latestBlock;
         fromBlock += MAX_LOG_RANGE_BLOCKS + 1)
      toBlock = Math.min(fromBlock + MAX_LOG_RANGE_BLOCKS, latestBlock)

with `w = MAX_LOG_RANGE_BLOCKS` (1000 in the source). -/
def scanWindows (fromBlock latestBlock w : ℕ) : List (ℕ × ℕ) :=
  if fromBlock ≤ latestBlock then
    (fromBlock, min (fromBlock + w) latestBlock) ::
      scanWindows (fromBlock + w + 1) latestBlock w
  else []
termination_by latestBlock + 1 - fromBlock
decreasing_by omega

-- -----------------------------
-- Scan checkpoint state (`lp_scan_state.json` / `loan_scan_state.json`)
-- -----------------------------

/-- `{protocol: lastScannedBlock}` for one chain. -/
abbrev ProtocolMap := List (String × Int)

/-- `{chain: {protocol: {lastScannedBlock}}}` as association lists. -/
abbrev ScanState := List (String × ProtocolMap)

/-- Plain object property lookup. -/
def alistGet {α : Type} (l : List (String × α)) (k : String) : Option α :=
  match l with
  | [] => none
  | (k', v) :: rest => if k' = k then some v else alistGet rest k

/-- Plain object property assignment. -/
def alistSet {α : Type} (l : List (String × α)) (k : String) (v : α) :
    List (String × α) :=
  match l with
  | [] => [(k, v)]
  | (k', v') :: rest =>
    if k' = k then (k, v) :: rest else (k', v') :: alistSet rest k v

/-- `getStartBlock(state, chain, protocol, envStartKey)`: the stored
checkpoint if present, else the env bootstrap block, else 0. -/
def getStartBlock (st : ScanState) (chain protocol : String)
    (envStart : Option Int) : Int :=
  match alistGet st chain with
  | some pm =>
    match alistGet pm protocol with
    | some b => b
    | none => envStart.getD 0
  | none => envStart.getD 0

/-- `setLastScannedBlock(state, chain, protocol, blockNumber)`. -/
def setLastScannedBlock (st : ScanState) (chain protocol : String) (b : Int) :
    ScanState :=
  let pm := (alistGet st chain).getD []
  alistSet st chain (alistSet pm protocol b)

/-- The checkpoint effect of one `discoverForLpContract` /
`discoverForLoanContract` run: the per-owner log scans and `ownerOf`
confirmations never touch the state, and at the end the run calls
`setLastScannedBlock(state, chain, protocol, latestBlock)` unconditionally,
whatever was discovered. -/
def discoverRunCheckpoint (st : ScanState) (chain protocol : String)
    (latestBlock : Int) : ScanState :=
  setLastScannedBlock st chain protocol latestBlock

-- -----------------------------
-- Loan monitoring pass (monitoring/loanMonitor.js)
-- -----------------------------

/-- `troveStatusToString(code)`. -/
def troveStatusToString (code : Int) : String :=
  if code = 1 then "ACTIVE"
  else if code = 2 then "CLOSED_BY_OWNER"
  else if code = 3 then "CLOSED_BY_LIQUIDATION"
  else if code = 4 then "CLOSED_BY_REDEMPTION"
  else "UNKNOWN(" ++ toString code ++ ")"

/-- `Number(ethers.formatUnits(raw, decimals))`: the raw integer scaled down
by `10^decimals` (exact over ℚ). -/
def formatUnits (raw : ℕ) (decimals : ℕ) : ℚ :=
  (raw : ℚ) / 10 ^ decimals

/-- The chain reads `summarizeLoanPosition` / `describeLoanPosition` perform
for one loan row, gathered before the pure computation: trove data from
`getLatestTroveData` / `getTroveStatus`, the collateral token's metadata,
the oracle read (`getOraclePrice`, `none` when no source validated a
non-zero price), `MCR`, the optional `getCurrentICR` result, and the
protocol's optional global reference rate. -/
structure LoanReads where
  collDecimals : ℕ
  entireDebt : ℕ
  entireColl : ℕ
  accruedInterest : ℕ
  annualInterestRate : ℕ
  statusCode : Int
  globalIrPct : Option JSNum
  rawPrice : Option ℕ
  mcr : ℕ
  icr : Option ℕ
deriving DecidableEq, Repr

/-- The summary object built by `summarizeLoanPosition` (identification and
label fields that no claim mentions are omitted). -/
structure LoanSummary where
  collAmount : ℚ
  debtAmount : ℚ
  accruedInterest : ℚ
  interestPct : ℚ
  redemptionTier : String
  status : String
  hasPrice : Bool
  price : Option ℚ
  ltv : Option ℚ
  liquidationPrice : Option ℚ
  liquidationBufferFrac : Option ℚ
  liquidationTier : Option String
deriving DecidableEq, Repr

/-- `summarizeLoanPosition(provider, chainId, protocol, row)`: the JS
function always returns a summary object — the `base` object when no price
is available, the extended one otherwise.  There is no filter on zero debt
(or on status). -/
def summarizeLoanPosition (redCfg : RedempThresholds) (liqCfg : LiqThresholds)
    (r : LoanReads) : LoanSummary :=
  let debtNorm := formatUnits r.entireDebt 18
  let collNorm := formatUnits r.entireColl r.collDecimals
  let accruedInterestNorm := formatUnits r.accruedInterest 18
  let interestPct := formatUnits r.annualInterestRate 18 * 100
  let statusStr := troveStatusToString r.statusCode
  let redClass := classifyRedemptionTier redCfg (.fin interestPct) r.globalIrPct
  let base : LoanSummary :=
    { collAmount := collNorm, debtAmount := debtNorm,
      accruedInterest := accruedInterestNorm, interestPct := interestPct,
      redemptionTier := redClass.tier, status := statusStr,
      hasPrice := false, price := none, ltv := none, liquidationPrice := none,
      liquidationBufferFrac := none, liquidationTier := none }
  match r.rawPrice with
  | none => base
  | some praw =>
    let priceNorm := formatUnits praw 18
    let mcrNorm := formatUnits r.mcr 18
    let collValue := collNorm * priceNorm
    let ltv := if 0 < collValue then debtNorm / collValue else 0
    let liquidationPrice := if 0 < collNorm then debtNorm * mcrNorm / collNorm else 0
    let bufferFrac : Option ℚ :=
      if 0 < priceNorm then some ((priceNorm - liquidationPrice) / priceNorm) else none
    let liqClass := classifyLiquidationRisk liqCfg (bufferFrac.map JSNum.fin)
    { base with
      hasPrice := true, price := some priceNorm, ltv := some ltv,
      liquidationPrice := some liquidationPrice,
      liquidationBufferFrac := bufferFrac, liquidationTier := some liqClass.tier }

/-- `cdpState && cdpState.state === 'ACTIVE'` from `describeLoanPosition`
(the `cdpState` option defaults to `null`). -/
def cdpIsActive (cdpState : Option CdpClass) : Bool :=
  match cdpState with
  | none => false
  | some c => c.state == "ACTIVE"

/-- `redAlertActive = cdpIsActive && isTierAtLeast(redClass.tier,
REDEMP_ALERT_MIN_TIER, REDEMP_TIER_ORDER)`: the `isActive` value
`describeLoanPosition` hands to `handleRedemptionAlert`, which passes it
through to the alert engine's `processAlert`. -/
def redAlertActive (cdpState : Option CdpClass) (redTier minTier : String) : Bool :=
  cdpIsActive cdpState && isTierAtLeast redTier minTier REDEMP_TIER_ORDER

/-- An invocation of a loan alert handler with its `isActive` flag and tier. -/
inductive LoanAlertCall where
  | liquidation (isActive : Bool) (tier : String)
  | redemption (isActive : Bool) (tier : String)
deriving DecidableEq, Repr

/-- The alert-handler invocations `describeLoanPosition` makes for one loan
row: none when no price is available (the function returns before the alert
hooks), otherwise one `handleLiquidationAlert` and one
`handleRedemptionAlert`, in that order, whatever the debt amount. -/
def describeLoanAlertCalls (redCfg : RedempThresholds) (liqCfg : LiqThresholds)
    (minLiqTier minRedTier : String) (cdpState : Option CdpClass)
    (r : LoanReads) : List LoanAlertCall :=
  let interestPct := formatUnits r.annualInterestRate 18 * 100
  let redClass := classifyRedemptionTier redCfg (.fin interestPct) r.globalIrPct
  match r.rawPrice with
  | none => []
  | some praw =>
    let priceNorm := formatUnits praw 18
    let mcrNorm := formatUnits r.mcr 18
    let collNorm := formatUnits r.entireColl r.collDecimals
    let debtNorm := formatUnits r.entireDebt 18
    let liquidationPrice := if 0 < collNorm then debtNorm * mcrNorm / collNorm else 0
    let bufferFrac : Option ℚ :=
      if 0 < priceNorm then some ((priceNorm - liquidationPrice) / priceNorm) else none
    let liqClass := classifyLiquidationRisk liqCfg (bufferFrac.map JSNum.fin)
    let liqAlertActive := isTierAtLeast liqClass.tier minLiqTier LIQ_TIER_ORDER
    [LoanAlertCall.liquidation liqAlertActive liqClass.tier,
     LoanAlertCall.redemption (redAlertActive cdpState redClass.tier minRedTier)
       redClass.tier]

-- -----------------------------
-- LP monitoring pass (monitoring/lpMonitor.js)
-- -----------------------------

/-- The chain reads for one LP row: the `positions(tokenId)` fields used and
the pool's current tick when the factory/pool lookup succeeded (`none`
covers both a missing pool and a failed read). -/
structure LpReads where
  liquidity : ℕ
  tickLower : Int
  tickUpper : Int
  poolTick : Option Int
deriving DecidableEq, Repr

/-- The summary object built by `summarizeLpPosition` (identification and
token-pair fields that no claim mentions are omitted). -/
structure LpSummary where
  tickLower : Int
  tickUpper : Int
  currentTick : Option Int
  liquidity : ℕ
  status : String
  rangeStatus : String
  lpRangeTier : String
deriving DecidableEq, Repr

/-- The range status `summarizeLpPosition` computes:
`currentTick >= tickLower && currentTick < tickUpper` when the pool tick is
known, else `UNKNOWN`. -/
def lpRangeStatus (r : LpReads) : String :=
  match r.poolTick with
  | none => "UNKNOWN"
  | some t =>
    if r.tickLower ≤ t ∧ t < r.tickUpper then "IN_RANGE" else "OUT_OF_RANGE"

/-- `summarizeLpPosition(provider, chainId, protocol, row)`: returns `null`
for a zero-liquidity position (inactive; ignored in summaries), otherwise a
summary with `status: 'ACTIVE'` and the classified range tier. -/
def summarizeLpPosition (cfg : LpThresholds) (r : LpReads) : Option LpSummary :=
  if r.liquidity = 0 then none
  else
    let rangeStatus := lpRangeStatus r
    let lpClass := classifyLpRangeTier cfg rangeStatus
      (.fin (r.tickLower : ℚ)) (.fin (r.tickUpper : ℚ))
      (r.poolTick.map (fun t => .fin (t : ℚ)))
    some { tickLower := r.tickLower, tickUpper := r.tickUpper,
           currentTick := r.poolTick, liquidity := r.liquidity,
           status := "ACTIVE", rangeStatus := rangeStatus,
           lpRangeTier := lpClass.tier }

/-- An invocation of `handleLpRangeAlert` with its `isActive` flag, the
normalized current status and the range tier. -/
structure LpRangeCall where
  isActive : Bool
  currentStatus : String
  lpRangeTier : String
deriving DecidableEq, Repr

/-- The alert-handler invocations `describeLpPosition` makes for one LP row:
none for a zero-liquidity position (the function returns before any alert
hook), otherwise exactly one `handleLpRangeAlert` whose `isActive` requires
`OUT_OF_RANGE` and the tier to meet `LP_ALERT_MIN_TIER`. -/
def describeLpAlertCalls (cfg : LpThresholds) (minTier : String) (r : LpReads) :
    List LpRangeCall :=
  if r.liquidity = 0 then []
  else
    let rangeStatusRaw :=
      match r.poolTick with
      | none => "(not computed)"
      | some t =>
        if r.tickLower ≤ t ∧ t < r.tickUpper then "IN RANGE" else "OUT OF RANGE"
    let normCurrentStatus :=
      if rangeStatusRaw = "(not computed)" then "UNKNOWN"
      else normalizeRangeStatus rangeStatusRaw
    let lpClass := classifyLpRangeTier cfg normCurrentStatus
      (.fin (r.tickLower : ℚ)) (.fin (r.tickUpper : ℚ))
      (r.poolTick.map (fun t => .fin (t : ℚ)))
    let isActive :=
      normCurrentStatus == "OUT_OF_RANGE" && isLpTierAtLeast lpClass.tier minTier
    [{ isActive := isActive, currentStatus := normCurrentStatus,
       lpRangeTier := lpClass.tier }]

-- -----------------------------
-- Helper lemmas
-- -----------------------------

/-- JS `<` is irreflexive on every number (`NaN < NaN` and `x < x` are false). -/
theorem jsLt_self_eq_false (x : JSNum) : jsLt x x = false := by
  cases x <;> simp [jsLt]

-- -----------------------------
-- Claim theorems
-- -----------------------------

/-- C3 counterexample: `isTierAtLeast('UNKNOWN', 'LOW', LIQ_TIER_ORDER)` is
`true`, not `false`: `UNKNOWN` sits at index 4 of the order, the highest
index, so it passes the `idx >= minIdx` test against the defined minimum
`LOW`. -/
theorem isTierAtLeast_unknown_low_true :
    isTierAtLeast "UNKNOWN" "LOW" LIQ_TIER_ORDER = true := by decide

/-- C3 (amended): because `UNKNOWN` is the last element of each tier order,
`isTierAtLeast('UNKNOWN', minTier, order)` is `true` for every `minTier`
present in the order (defined minimums included), rather than `false`: an
UNKNOWN classification always satisfies the "tier meets or exceeds the
minimum" test. -/
theorem isTierAtLeast_unknown_always_passes :
    (LIQ_TIER_ORDER.all fun m => isTierAtLeast "UNKNOWN" m LIQ_TIER_ORDER) = true ∧
    (REDEMP_TIER_ORDER.all fun m => isTierAtLeast "UNKNOWN" m REDEMP_TIER_ORDER) = true ∧
    (LP_TIER_ORDER.all fun m => isTierAtLeast "UNKNOWN" m LP_TIER_ORDER) = true := by
  refine ⟨?_, ?_, ?_⟩ <;> decide

/-- C5 (confirmed): for every finite `bufferFrac` and finite configured
thresholds, `classifyLiquidationRisk` applies the `<=` threshold ladder
most-severe-first — `CRITICAL` when `bufferFrac ≤ crit`, else `HIGH` when
`≤ high`, else `MEDIUM` when `≤ warn`, else `LOW` — and a buffer exactly
equal to the critical threshold resolves to `CRITICAL`, not `HIGH`. -/
theorem classifyLiquidationRisk_threshold_ladder :
    (∀ warn high crit q : ℚ,
      (classifyLiquidationRisk ⟨.fin warn, .fin high, .fin crit⟩
          (some (.fin q))).tier =
        if q ≤ crit then "CRITICAL"
        else if q ≤ high then "HIGH"
        else if q ≤ warn then "MEDIUM"
        else "LOW") ∧
    (∀ warn high crit : ℚ,
      (classifyLiquidationRisk ⟨.fin warn, .fin high, .fin crit⟩
          (some (.fin crit))).tier = "CRITICAL") := by
  constructor
  · intro warn high crit q
    simp [classifyLiquidationRisk, JSNum.isFinite, JSNum.jsLe]
  · intro warn high crit
    simp [classifyLiquidationRisk, JSNum.isFinite, JSNum.jsLe]

/-- C10 (confirmed): `classifyCdpRedemptionState` yields state `UNKNOWN`
exactly when the CDP price is `null`; for a non-`null` price it yields
`ACTIVE` exactly when the price is strictly below the trigger (JS `<`), so
a price exactly equal to the trigger classifies as `DORMANT`. -/
theorem classifyCdpRedemptionState_trigger_boundary :
    (∀ trigger : JSNum,
      (classifyCdpRedemptionState trigger none).state = "UNKNOWN") ∧
    (∀ trigger p : JSNum,
      (classifyCdpRedemptionState trigger (some p)).state ≠ "UNKNOWN" ∧
      ((classifyCdpRedemptionState trigger (some p)).state = "ACTIVE" ↔
        jsLt p trigger = true)) ∧
    (∀ trigger : JSNum,
      (classifyCdpRedemptionState trigger (some trigger)).state = "DORMANT") := by
  refine ⟨fun _ => rfl, fun trigger p => ?_, fun trigger => ?_⟩
  · constructor
    · by_cases h : jsLt p trigger = true <;> simp [classifyCdpRedemptionState, h]
    · by_cases h : jsLt p trigger = true <;> simp [classifyCdpRedemptionState, h]
  · simp [classifyCdpRedemptionState, jsLt_self_eq_false]

/-- The redemption classifier always lands in its five-tier set. -/
theorem classifyRedemptionTier_total (cfg : RedempThresholds) (i : JSNum)
    (g : Option JSNum) :
    (classifyRedemptionTier cfg i g).tier ∈
      ["HIGH", "MEDIUM", "NEUTRAL", "LOW", "UNKNOWN"] := by
  cases g with
  | none => simp [classifyRedemptionTier]
  | some g0 =>
    simp only [classifyRedemptionTier]
    split_ifs <;> simp

/-- The liquidation classifier always lands in its five-tier set. -/
theorem classifyLiquidationRisk_total (cfg : LiqThresholds) (b : Option JSNum) :
    (classifyLiquidationRisk cfg b).tier ∈
      ["CRITICAL", "HIGH", "MEDIUM", "LOW", "UNKNOWN"] := by
  cases b with
  | none => simp [classifyLiquidationRisk]
  | some x =>
    simp only [classifyLiquidationRisk]
    split_ifs <;> simp

/-- The LP range classifier always lands in its five-tier set. -/
theorem classifyLpRangeTier_total (cfg : LpThresholds) (s : String)
    (lo hi : JSNum) (t : Option JSNum) :
    (classifyLpRangeTier cfg s lo hi t).tier ∈
      ["LOW", "MEDIUM", "HIGH", "CRITICAL", "UNKNOWN"] := by
  simp only [classifyLpRangeTier]
  repeat' split
  all_goals simp_all

/-- The liquidation classifier is `UNKNOWN` exactly on a missing or
non-finite buffer. -/
theorem classifyLiquidationRisk_unknown_iff (cfg : LiqThresholds)
    (b : Option JSNum) :
    ((classifyLiquidationRisk cfg b).tier = "UNKNOWN" ↔ isFiniteOpt b = false) := by
  cases b with
  | none => simp [classifyLiquidationRisk, isFiniteOpt]
  | some x =>
    by_cases hx : x.isFinite
    · simp only [classifyLiquidationRisk, isFiniteOpt, hx]
      split_ifs <;> simp_all
    · simp [classifyLiquidationRisk, isFiniteOpt, hx]

/-- The redemption classifier is `UNKNOWN` exactly on a missing global rate. -/
theorem classifyRedemptionTier_unknown_iff (cfg : RedempThresholds) (i : JSNum)
    (g : Option JSNum) :
    ((classifyRedemptionTier cfg i g).tier = "UNKNOWN" ↔ g = none) := by
  cases g with
  | none => simp [classifyRedemptionTier]
  | some g0 =>
    simp only [classifyRedemptionTier]
    split_ifs <;> simp

/-- C4 counterexample: a non-finite metric input does not always classify as
`UNKNOWN`: a `NaN` `interestPct` with a present (finite) global rate makes
every `<=` comparison false, so `classifyRedemptionTier` falls through to
`LOW`, not `UNKNOWN`. -/
theorem classifyRedemptionTier_nan_gives_low :
    (classifyRedemptionTier ⟨.fin (-1), .fin 0, .fin 1⟩ .nan
        (some (.fin 5))).tier = "LOW" := by decide

/-- C4 (amended): every risk classifier is a deterministic total function —
for any metric input, finite or non-finite, it returns exactly one tier of
its tier set and never throws.  The liquidation classifier returns `UNKNOWN`
exactly when its buffer input is missing or non-finite, and the redemption
classifier returns `UNKNOWN` exactly when the global reference rate is
missing; but a non-finite `interestPct` with a present global rate
classifies as `LOW` rather than `UNKNOWN`. -/
theorem classifiers_total_and_unknown_policy :
    (∀ (cfg : RedempThresholds) (i : JSNum) (g : Option JSNum),
      (classifyRedemptionTier cfg i g).tier ∈
        ["HIGH", "MEDIUM", "NEUTRAL", "LOW", "UNKNOWN"]) ∧
    (∀ (cfg : LiqThresholds) (b : Option JSNum),
      (classifyLiquidationRisk cfg b).tier ∈
        ["CRITICAL", "HIGH", "MEDIUM", "LOW", "UNKNOWN"]) ∧
    (∀ (cfg : LpThresholds) (s : String) (lo hi : JSNum) (t : Option JSNum),
      (classifyLpRangeTier cfg s lo hi t).tier ∈
        ["LOW", "MEDIUM", "HIGH", "CRITICAL", "UNKNOWN"]) ∧
    (∀ (cfg : LiqThresholds) (b : Option JSNum),
      ((classifyLiquidationRisk cfg b).tier = "UNKNOWN" ↔ isFiniteOpt b = false)) ∧
    (∀ (cfg : RedempThresholds) (i : JSNum) (g : Option JSNum),
      ((classifyRedemptionTier cfg i g).tier = "UNKNOWN" ↔ g = none)) :=
  ⟨classifyRedemptionTier_total, classifyLiquidationRisk_total,
   classifyLpRangeTier_total, classifyLiquidationRisk_unknown_iff,
   classifyRedemptionTier_unknown_iff⟩

/-- Object property assignment then lookup on the same key. -/
theorem alistGet_alistSet_self {α : Type} (l : List (String × α)) (k : String)
    (v : α) : alistGet (alistSet l k v) k = some v := by
  induction l with
  | nil => simp [alistSet, alistGet]
  | cons hd tl ih =>
    obtain ⟨k', v'⟩ := hd
    by_cases h : k' = k
    · subst h; simp [alistSet, alistGet]
    · simp [alistSet, alistGet, h, ih]

/-- After `setLastScannedBlock`, `getStartBlock` reads back exactly the
written block (the env bootstrap is no longer consulted). -/
theorem getStartBlock_setLastScannedBlock (st : ScanState) (c p : String)
    (b : Int) (env : Option Int) :
    getStartBlock (setLastScannedBlock st c p b) c p env = b := by
  simp [setLastScannedBlock, getStartBlock, alistGet_alistSet_self]

/-- C2 counterexample: the checkpoint CAN decrease.  With a stored
`lastScannedBlock` of 5000 for (FLR, ENOSYS_LP), a run whose RPC reports
`latestBlock = 4000` still calls `setLastScannedBlock(..., 4000)`
unconditionally, so the checkpoint written at the end of the run (4000) is
strictly below the checkpoint read at the start (5000). -/
theorem checkpoint_decrease_counterexample :
    getStartBlock
        (discoverRunCheckpoint [("FLR", [("ENOSYS_LP", (5000 : Int))])]
          "FLR" "ENOSYS_LP" 4000) "FLR" "ENOSYS_LP" none <
      getStartBlock [("FLR", [("ENOSYS_LP", (5000 : Int))])]
        "FLR" "ENOSYS_LP" none := by decide

/-- C2 (amended): a discovery run always writes `latestBlock` as the new
checkpoint for its (chain, protocol); therefore the checkpoint never
decreases provided the chain's reported `latestBlock` is at least the value
read at the start of the run (the normal case of a growing chain).  When
the RPC reports a head behind the stored checkpoint the checkpoint moves
backwards. -/
theorem checkpoint_monotone_when_latest_ahead (st : ScanState)
    (chain protocol : String) (envStart : Option Int) (latestBlock : Int)
    (h : getStartBlock st chain protocol envStart ≤ latestBlock) :
    getStartBlock (discoverRunCheckpoint st chain protocol latestBlock)
        chain protocol envStart = latestBlock ∧
    getStartBlock st chain protocol envStart ≤
      getStartBlock (discoverRunCheckpoint st chain protocol latestBlock)
        chain protocol envStart := by
  have e := getStartBlock_setLastScannedBlock st chain protocol latestBlock envStart
  constructor
  · simpa [discoverRunCheckpoint] using e
  · simp only [discoverRunCheckpoint, e]
    exact h

/-- C2 witness: a concrete run from checkpoint 3000 to latest block 4000. -/
theorem checkpoint_monotone_when_latest_ahead_witness :
    getStartBlock [("FLR", [("ENOSYS_LP", (3000 : Int))])]
        "FLR" "ENOSYS_LP" none ≤ 4000 ∧
    (getStartBlock
        (discoverRunCheckpoint [("FLR", [("ENOSYS_LP", (3000 : Int))])]
          "FLR" "ENOSYS_LP" 4000) "FLR" "ENOSYS_LP" none = 4000 ∧
      getStartBlock [("FLR", [("ENOSYS_LP", (3000 : Int))])]
          "FLR" "ENOSYS_LP" none ≤
        getStartBlock
          (discoverRunCheckpoint [("FLR", [("ENOSYS_LP", (3000 : Int))])]
            "FLR" "ENOSYS_LP" 4000) "FLR" "ENOSYS_LP" none) :=
  ⟨by decide,
   checkpoint_monotone_when_latest_ahead
     [("FLR", [("ENOSYS_LP", (3000 : Int))])] "FLR" "ENOSYS_LP" none 4000
     (by decide)⟩

/-- Evaluating the scan loop on the spec's worked example: with
`MAX_LOG_RANGE_BLOCKS = 1000` the loop advances `fromBlock` by 1001 and
caps `toBlock` at `fromBlock + 1000`. -/
theorem scanWindows_0_2500_1000 :
    scanWindows 0 2500 1000 = [(0, 1000), (1001, 2001), (2002, 2500)] := by
  rw [scanWindows]; norm_num
  rw [scanWindows]; norm_num
  rw [scanWindows]; norm_num
  rw [scanWindows]; norm_num

/-- The windows' inclusive block ranges concatenate to exactly the full
inclusive range `[f, l]` (so they are consecutive and non-overlapping). -/
theorem scanWindows_cover :
    ∀ (N f l w : ℕ), l + 1 - f ≤ N → f ≤ l →
      (scanWindows f l w).flatMap (fun p => List.range' p.1 (p.2 + 1 - p.1)) =
        List.range' f (l + 1 - f) := by
  intro N
  induction N with
  | zero => intro f l w hN h; omega
  | succ N ih =>
    intro f l w hN h
    rw [scanWindows, if_pos h]
    by_cases hc : l ≤ f + w
    · have h1 : min (f + w) l = l := min_eq_right hc
      rw [h1, scanWindows, if_neg (by omega)]
      simp
    · have h1 : min (f + w) l = f + w := min_eq_left (by omega)
      rw [h1, List.flatMap_cons, ih (f + w + 1) l w (by omega) (by omega)]
      have h3 := List.range'_append f (w + 1) (l + 1 - (f + w + 1)) 1
      simp only [one_mul] at h3
      have e1 : f + (w + 1) = f + w + 1 := by omega
      rw [e1] at h3
      have e2 : f + w + 1 - f = w + 1 := by omega
      rw [e2, h3]
      congr 1
      omega

/-- Every window starts no earlier than the scan start, ends no later than
the latest block, and spans at most `w` (`toBlock - fromBlock ≤ w`). -/
theorem scanWindows_bounds :
    ∀ (N f l w : ℕ), l + 1 - f ≤ N →
      ∀ p ∈ scanWindows f l w, f ≤ p.1 ∧ p.1 ≤ p.2 ∧ p.2 - p.1 ≤ w ∧ p.2 ≤ l := by
  intro N
  induction N with
  | zero =>
    intro f l w hN p hp
    rw [scanWindows, if_neg (by omega)] at hp
    simp at hp
  | succ N ih =>
    intro f l w hN p hp
    by_cases h : f ≤ l
    · rw [scanWindows, if_pos h] at hp
      rcases List.mem_cons.mp hp with h1 | h1
      · subst h1
        have hmin1 : min (f + w) l ≤ f + w := min_le_left _ _
        have hmin2 : min (f + w) l ≤ l := min_le_right _ _
        have hmin3 : f ≤ min (f + w) l := le_min (by omega) h
        dsimp only
        omega
      · have := ih (f + w + 1) l w (by omega) p h1
        omega
    · rw [scanWindows, if_neg h] at hp
      simp at hp

/-- C1 counterexample: the spec's worked example names the wrong window
boundaries.  The loop advances `fromBlock` by `W + 1` and caps `toBlock`
at `fromBlock + W`, so scanning blocks 0 through 2500 with `W = 1000`
issues the windows `[0,1000]`, `[1001,2001]`, `[2002,2500]` — not
`[0,1000]`, `[1001,2000]`, `[2001,2500]`. -/
theorem scanWindows_example_differs_from_spec :
    scanWindows 0 2500 1000 ≠ [(0, 1000), (1001, 2000), (2001, 2500)] := by
  rw [scanWindows_0_2500_1000]
  decide

/-- C1 (amended): for every scan of the inclusive range
`[startBlock, latestBlock]`, the scanner partitions the range into
consecutive, non-overlapping windows each spanning at most `W`
(`toBlock - fromBlock ≤ W`): the windows' inclusive ranges concatenate to
exactly the full range.  Scanning blocks 0 through 2500 with `W = 1000`
issues exactly the 3 query windows `[0,1000]`, `[1001,2001]`,
`[2002,2500]`. -/
theorem scanWindows_partition :
    scanWindows 0 2500 1000 = [(0, 1000), (1001, 2001), (2002, 2500)] ∧
    (∀ f l w : ℕ, f ≤ l →
      (scanWindows f l w).flatMap (fun p => List.range' p.1 (p.2 + 1 - p.1)) =
        List.range' f (l + 1 - f)) ∧
    (∀ f l w : ℕ, ∀ p ∈ scanWindows f l w,
      f ≤ p.1 ∧ p.1 ≤ p.2 ∧ p.2 - p.1 ≤ w ∧ p.2 ≤ l) :=
  ⟨scanWindows_0_2500_1000,
   fun f l w h => scanWindows_cover (l + 1 - f) f l w le_rfl h,
   fun f l w p hp => scanWindows_bounds (l + 1 - f) f l w le_rfl p hp⟩

/-- `Map.set` then `Map.get` on the same key. -/
theorem mapGet_mapSet_self (m : AlertMap) (k : String) (v : AlertRecord) :
    mapGet (mapSet m k v) k = some v := by
  induction m with
  | nil => simp [mapSet, mapGet]
  | cons hd tl ih =>
    obtain ⟨k', v'⟩ := hd
    by_cases h : k' = k
    · subst h; simp [mapSet, mapGet]
    · simp [mapSet, mapGet, h, ih]

/-- An active alert re-processed with its stored signature is a no-op:
no state change, no outward notification. -/
theorem processAlert_active_noop (st : AlertMap) (key sig : String)
    (h : mapGet st key = some { isActive := true, sigValue := some sig }) :
    processAlert st key true sig = (st, none) := by
  simp [processAlert, h]

/-- Any number of repeated active calls with the stored signature stay a
no-op. -/
theorem processActiveRun_noop (key sig : String) :
    ∀ (n : ℕ) (st : AlertMap),
      mapGet st key = some { isActive := true, sigValue := some sig } →
      processActiveRun st key sig n = (st, []) := by
  intro n
  induction n with
  | zero => intro st h; rfl
  | succ n ih =>
    intro st h
    simp [processActiveRun, processAlert_active_noop st key sig h, ih st h]

/-- C6 (confirmed): for a fixed alert key and a fixed signature, a sequence
of `processAlert` calls with `isActive = true` starting from the Inactive
state (no stored record, or a stored record with `isActive = false`) emits
exactly one NEW notification — on the first call — and zero further
notifications on all subsequent calls. -/
theorem alert_dedup_single_new (st : AlertMap) (key sig : String) (n : ℕ)
    (h : ((mapGet st key).getD { isActive := false, sigValue := none }).isActive
          = false) :
    (processActiveRun st key sig (n + 1)).2 = [Phase.NEW] := by
  have hstep : processAlert st key true sig =
      (mapSet st key { isActive := true, sigValue := some sig }, some Phase.NEW) := by
    simp [processAlert, h]
  have hget := mapGet_mapSet_self st key { isActive := true, sigValue := some sig }
  have hrest := processActiveRun_noop key sig n _ hget
  simp [processActiveRun, hstep, hrest]

/-- C6 witness: four consecutive active classifications of a fresh
liquidation key with one signature produce exactly `[NEW]`. -/
theorem alert_dedup_single_new_witness :
    ((mapGet ([] : AlertMap) "LIQUIDATION:PROTO:0xW:1").getD
        { isActive := false, sigValue := none }).isActive = false ∧
    (processActiveRun [] "LIQUIDATION:PROTO:0xW:1" "sig-medium" 4).2 =
      [Phase.NEW] :=
  ⟨rfl, alert_dedup_single_new [] "LIQUIDATION:PROTO:0xW:1" "sig-medium" 3 rfl⟩

/-- C7 (confirmed): `processAlert` with `isActive = false` on a key whose
stored record is Active emits zero outward notifications and overwrites the
stored record with `{isActive: false, signature: null}`. -/
theorem alert_resolution_no_dm (st : AlertMap) (key sig : String)
    (r : AlertRecord) (hr : mapGet st key = some r) (ha : r.isActive = true) :
    processAlert st key false sig =
      (mapSet st key { isActive := false, sigValue := none }, none) ∧
    mapGet (processAlert st key false sig).1 key =
      some { isActive := false, sigValue := none } := by
  have h1 : processAlert st key false sig =
      (mapSet st key { isActive := false, sigValue := none }, none) := by
    simp [processAlert, hr, ha]
  exact ⟨h1, by rw [h1]; exact mapGet_mapSet_self st key _⟩

/-- C7 witness: resolving a concrete active redemption alert. -/
theorem alert_resolution_no_dm_witness :
    processAlert
        [("REDEMPTION:PROTO:0xW:7",
          ({ isActive := true, sigValue := some "s0" } : AlertRecord))]
        "REDEMPTION:PROTO:0xW:7" false "s1" =
      (mapSet
        [("REDEMPTION:PROTO:0xW:7",
          ({ isActive := true, sigValue := some "s0" } : AlertRecord))]
        "REDEMPTION:PROTO:0xW:7" { isActive := false, sigValue := none }, none) ∧
    mapGet (processAlert
        [("REDEMPTION:PROTO:0xW:7",
          ({ isActive := true, sigValue := some "s0" } : AlertRecord))]
        "REDEMPTION:PROTO:0xW:7" false "s1").1 "REDEMPTION:PROTO:0xW:7" =
      some { isActive := false, sigValue := none } :=
  alert_resolution_no_dm _ "REDEMPTION:PROTO:0xW:7" "s1" _ rfl rfl

/-- C8 (confirmed): the `isActive` flag `describeLoanPosition` hands to the
alert engine for a redemption alert is true only if the CDP redemption
state equals `ACTIVE` and the redemption tier meets the configured minimum;
when the CDP state is `DORMANT` or `UNKNOWN` (or absent) the redemption
alert is inactive regardless of the tier. -/
theorem redemption_alert_requires_active_cdp :
    ∀ (cdpState : Option CdpClass) (redTier minTier : String),
      (redAlertActive cdpState redTier minTier = true →
        (∃ c, cdpState = some c ∧ c.state = "ACTIVE") ∧
        isTierAtLeast redTier minTier REDEMP_TIER_ORDER = true) ∧
      (∀ c, cdpState = some c → (c.state = "DORMANT" ∨ c.state = "UNKNOWN") →
        redAlertActive cdpState redTier minTier = false) ∧
      redAlertActive none redTier minTier = false := by
  intro cdpState redTier minTier
  refine ⟨?_, ?_, by simp [redAlertActive, cdpIsActive]⟩
  · intro h
    cases cdpState with
    | none => simp [redAlertActive, cdpIsActive] at h
    | some c =>
      simp only [redAlertActive, cdpIsActive, Bool.and_eq_true, beq_iff_eq] at h
      exact ⟨⟨c, rfl, h.1⟩, h.2⟩
  · rintro c rfl hdu
    rcases hdu with h | h <;> simp [redAlertActive, cdpIsActive, h]

/-- C9 counterexample: a zero-debt loan position is not excluded from
monitoring and alerting.  For a concrete loan read with `entireDebt = 0`
and a valid oracle price, `summarizeLoanPosition` still produces a summary
object (its `debtAmount` is 0) and `describeLoanPosition` still invokes
both alert handlers (the liquidation and the redemption one). -/
theorem zero_debt_loan_not_excluded :
    (summarizeLoanPosition ⟨.fin (-1), .fin 0, .fin 1⟩
        ⟨.fin (1/5), .fin (1/10), .fin (1/20)⟩
        { collDecimals := 18, entireDebt := 0, entireColl := 10 ^ 18,
          accruedInterest := 0, annualInterestRate := 0, statusCode := 1,
          globalIrPct := none, rawPrice := some (10 ^ 18),
          mcr := 11 * 10 ^ 17, icr := none }).debtAmount = 0 ∧
    (describeLoanAlertCalls ⟨.fin (-1), .fin 0, .fin 1⟩
        ⟨.fin (1/5), .fin (1/10), .fin (1/20)⟩ "MEDIUM" "MEDIUM" none
        { collDecimals := 18, entireDebt := 0, entireColl := 10 ^ 18,
          accruedInterest := 0, annualInterestRate := 0, statusCode := 1,
          globalIrPct := none, rawPrice := some (10 ^ 18),
          mcr := 11 * 10 ^ 17, icr := none }).length = 2 := by
  constructor
  · norm_num [summarizeLoanPosition, formatUnits]
  · rfl

/-- C9 (amended): every LP position with zero liquidity is treated as
inactive and excluded from monitoring and alerting — `summarizeLpPosition`
produces no summary object and `describeLpPosition` invokes no alert
handler for it.  Loan positions are not filtered on zero debt: whenever a
price is available, `describeLoanPosition` invokes its two alert handlers
whatever the debt amount. -/
theorem zero_liquidity_lp_excluded :
    (∀ (cfg : LpThresholds) (minTier : String) (r : LpReads),
      r.liquidity = 0 →
      summarizeLpPosition cfg r = none ∧ describeLpAlertCalls cfg minTier r = []) ∧
    (∀ (redCfg : RedempThresholds) (liqCfg : LiqThresholds)
       (minLiq minRed : String) (cdp : Option CdpClass) (r : LoanReads)
       (praw : ℕ), r.rawPrice = some praw →
      (describeLoanAlertCalls redCfg liqCfg minLiq minRed cdp r).length = 2) := by
  constructor
  · intro cfg minTier r h
    exact ⟨by simp [summarizeLpPosition, h], by simp [describeLpAlertCalls, h]⟩
  · intro redCfg liqCfg minLiq minRed cdp r praw h
    simp [describeLoanAlertCalls, h]

end LoanBot
